import Mathlib

/-!
Verification of the data-table query planner of msgvis (textvisdrg).

The definitions below are a shallow embedding of the request-handling code
in msgvis/apps/api/views.py, in particular:

- DataTableView.post (lines 121-165): history logging, validation gate,
  field extraction with Python get-with-default semantics, page and
  page_size normalization, the fast-path / general-path routing decision,
  and the delegation calls to the precomputed-distribution store
  (dataset.get_precalc_distribution) and the aggregation engine
  (DataTable(...).generate).
- add_history (lines 42-47): the action-history write performed before
  validation.
- KeywordView.get (lines 473-505): the autocomplete lookup over the
  PrecalcCategoricalDistribution table, including the tokenization of the
  query string and the case-insensitive prefix match.

External collaborators (the serializer, the ORM, the store and engine
internals) are modelled at their interface boundary: the serializer as a
validation oracle carried by the request, the store and the engine as
arbitrary functions supplied by an environment. The handler is embedded as
a function producing the trace of collaborator calls it makes together
with its response, so that routing, argument passing and exclusivity of
the two paths are all visible in the result.
-/

/-- A dimension as seen by the handler: its key and the answer of its
is_categorical() method (the dimension registry lives outside the view). -/
structure Dimension where
  key : String
  is_categorical : Bool
deriving DecidableEq

/-- A filter specification; the handler never inspects filters, it only
tests whether the filters value is a list and whether it is empty. -/
structure MsgFilter where
  dimension : String
  payload : String
deriving DecidableEq

/-- A group entry of the groups field; opaque to the handler. -/
structure MsgGroup where
  gid : Nat
deriving DecidableEq

/-- A JSON-backed optional list field of the validated data: the key can be
absent, present with value null, or present with a list value. -/
inductive OptListField (α : Type) where
  | absent
  | null
  | present (xs : List α)
deriving DecidableEq

/-- A Python value that is either None or a list: the type of the local
variables filters and exclude after data.get(key, []). -/
inductive PyList (α : Type) where
  | pynone
  | pylist (xs : List α)
deriving DecidableEq

/-- Python data.get(key, []) on an optional list field: an absent key
yields the default empty list, a null value yields None. -/
def getListField {α : Type} : OptListField α → PyList α
  | .absent => .pylist []
  | .null => .pynone
  | .present xs => .pylist xs

/-- The validated_data handed to the view body by the serializer. -/
structure DataTableRequestData where
  dataset : Nat
  dimensions : List Dimension
  filters : OptListField MsgFilter
  exclude : OptListField MsgFilter
  search_key : Option String
  mode : Option String
  groups : OptListField MsgGroup
  page_size : Option Int
  page : Option Int
deriving DecidableEq

/-- An incoming POST request: its raw body (as logged to the action
history) and the outcome of serializer validation, an external
collaborator modelled as an oracle. -/
structure RawRequest where
  body : String
  validated : Option DataTableRequestData

/-- Lines 138-142 of views.py: page_size starts at 100 and is replaced by
max(1, v) only when the supplied value is truthy (Python: nonzero). -/
def normalizePageSize : Option Int → Int
  | none => 100
  | some v => if v ≠ 0 then max 1 v else 100

/-- Lines 139, 143-144 of views.py: page starts as None and is replaced by
max(1, v) only when the supplied value is truthy (Python: nonzero). -/
def normalizePage : Option Int → Option Int
  | none => none
  | some v => if v ≠ 0 then some (max 1 v) else none

/-- Lines 134-136 of views.py: groups = data.get(..., []) followed by
if len(groups) == 0: groups = None. A null groups value makes len(None)
raise a TypeError, modelled as the none outcome. -/
def normalizeGroups : OptListField MsgGroup → Option (Option (List MsgGroup))
  | .absent => some none
  | .null => none
  | .present [] => some none
  | .present (g :: gs) => some (some (g :: gs))

/-- True exactly on a (Python) list value that is empty: the test
type(x) == types.ListType and len(x) == 0 from line 146-147. -/
def pyIsEmptyList {α : Type} : PyList α → Bool
  | .pylist [] => true
  | _ => false

/-- The routing condition of lines 146-147 of views.py: filters is an
empty list, exclude is an empty list, exactly one dimension is requested
and it is categorical. Note that groups, mode and search_key do not occur
in the condition. -/
def fastPathEligible (filters exclude : PyList MsgFilter) (dims : List Dimension) : Bool :=
  pyIsEmptyList filters && pyIsEmptyList exclude &&
    (match dims with
     | [d] => d.is_categorical
     | _ => false)

/-- The argument record of the call
dataset.get_precalc_distribution(dimension=..., search_key=..., page=...,
page_size=..., mode=...) on line 148. -/
structure PrecalcCall where
  dataset : Nat
  dimension : Dimension
  search_key : Option String
  page : Option Int
  page_size : Int
  mode : Option String
deriving DecidableEq

/-- The argument record of DataTable(*dimensions) [.set_mode(mode)]
.generate(dataset, filters, exclude, page_size, page, search_key, groups)
on lines 152-156. -/
structure GenerateCall where
  dataset : Nat
  dimensions : List Dimension
  mode : Option String
  filters : PyList MsgFilter
  exclude : PyList MsgFilter
  page_size : Int
  page : Option Int
  search_key : Option String
  groups : Option (List MsgGroup)
deriving DecidableEq

/-- An observable collaborator call of the handler. -/
inductive Event where
  | historyWrite (kind : String) (contents : String)
  | precalcLookup (call : PrecalcCall)
  | generateRun (call : GenerateCall)
deriving DecidableEq

/-- The HTTP response of the handler: 200 with a result, 400 on
validation failure, or an unhandled exception (500). -/
inductive PostResponse (ρ : Type) where
  | ok (result : ρ)
  | badRequest
  | serverError
deriving DecidableEq

/-- What one execution of the handler did: the ordered trace of
collaborator calls and the response. -/
structure PostOutcome (ρ : Type) where
  events : List Event
  response : PostResponse ρ
deriving DecidableEq

/-- The two consumed collaborators, as arbitrary answer functions: the
precomputed distribution store and the aggregation engine. -/
structure Env (ρ : Type) where
  precalcResult : PrecalcCall → ρ
  generateResult : GenerateCall → ρ

/-- Placeholder dimension used for the (unreachable) head of an empty
dimensions list in the fast branch. -/
def dummyDim : Dimension := ⟨"", false⟩

/-- The body of DataTableView.post after successful validation (lines
128-163 of views.py), producing the trace of collaborator calls and the
response. -/
def routeValidated {ρ : Type} (env : Env ρ) (body : String)
    (data : DataTableRequestData) : PostOutcome ρ :=
  let hw := Event.historyWrite "data-table" body
  let filters := getListField data.filters
  let exclude := getListField data.exclude
  match normalizeGroups data.groups with
  | none => ⟨[hw], .serverError⟩
  | some groups =>
    let page_size := normalizePageSize data.page_size
    let page := normalizePage data.page
    if fastPathEligible filters exclude data.dimensions then
      let call : PrecalcCall :=
        ⟨data.dataset, data.dimensions.headD dummyDim, data.search_key,
          page, page_size, data.mode⟩
      ⟨[hw, .precalcLookup call], .ok (env.precalcResult call)⟩
    else
      let call : GenerateCall :=
        ⟨data.dataset, data.dimensions, data.mode, filters, exclude,
          page_size, page, data.search_key, groups⟩
      ⟨[hw, .generateRun call], .ok (env.generateResult call)⟩

/-- DataTableView.post, lines 121-165 of views.py: the action history is
written first with the raw request body, then the serializer is consulted;
an invalid request is answered with 400, a valid one is routed. -/
def DataTableView_post {ρ : Type} (env : Env ρ) (req : RawRequest) : PostOutcome ρ :=
  match req.validated with
  | none => ⟨[Event.historyWrite "data-table" req.body], .badRequest⟩
  | some data => routeValidated env req.body data

/-- Which path a handler execution took: some true for the fast
(precalculated distribution) path, some false for the general aggregation
path, none when no path was reached. -/
def pathKind {ρ : Type} (o : PostOutcome ρ) : Option Bool :=
  o.events.findSome? fun e =>
    match e with
    | .precalcLookup _ => some true
    | .generateRun _ => some false
    | _ => none

/-- True on the two computation-path events. -/
def isPathEvent : Event → Bool
  | .precalcLookup _ => true
  | .generateRun _ => true
  | _ => false

/-- How many computation-path calls an execution made. -/
def pathEventCount {ρ : Type} (o : PostOutcome ρ) : Nat :=
  (o.events.filter isPathEvent).length

/-- The store call of an execution, when one was made. -/
def storeCallOf {ρ : Type} (o : PostOutcome ρ) : Option PrecalcCall :=
  o.events.findSome? fun e =>
    match e with
    | .precalcLookup c => some c
    | _ => none

/-- The engine call of an execution, when one was made. -/
def generateCallOf {ρ : Type} (o : PostOutcome ρ) : Option GenerateCall :=
  o.events.findSome? fun e =>
    match e with
    | .generateRun c => some c
    | _ => none

/-- The answer of the unique invoked path, when exactly one path was
invoked: the verbatim store answer on the fast path, the verbatim engine
answer on the general path. -/
def resultOfPath {ρ : Type} (env : Env ρ) (o : PostOutcome ρ) : Option ρ :=
  match storeCallOf o, generateCallOf o with
  | some c, none => some (env.precalcResult c)
  | none, some c => some (env.generateResult c)
  | _, _ => none

/-- True on a 200 response. -/
def isOkResponse {ρ : Type} : PostResponse ρ → Bool
  | .ok _ => true
  | _ => false

/-- A concrete environment over natural-number results, used for the
closed witnesses and counterexamples. -/
def envN : Env Nat := ⟨fun _ => 7, fun _ => 9⟩

/-- A concrete categorical dimension. -/
def catDim : Dimension := ⟨"sentiment", true⟩

/-- A concrete baseline validated request: one categorical dimension,
empty filters and exclude lists, no groups, no paging. -/
def baseData : DataTableRequestData :=
  ⟨1, [catDim], .present [], .present [], none, none, .absent, none, none⟩

/-- The store call actually built by the fast branch (line 148): dataset,
first dimension, search_key, normalized page and page_size, and mode. -/
def precalcCallFor (d : DataTableRequestData) : PrecalcCall :=
  ⟨d.dataset, d.dimensions.headD dummyDim, d.search_key,
    normalizePage d.page, normalizePageSize d.page_size, d.mode⟩

/-- The engine call built by the general branch (lines 152-156). -/
def generateCallFor (d : DataTableRequestData) (gs : Option (List MsgGroup)) :
    GenerateCall :=
  ⟨d.dataset, d.dimensions, d.mode, getListField d.filters, getListField d.exclude,
    normalizePageSize d.page_size, normalizePage d.page, d.search_key, gs⟩

theorem normalizeGroups_isSome (g : OptListField MsgGroup)
    (h : g ≠ OptListField.null) : ∃ gs, normalizeGroups g = some gs := by
  cases g with
  | absent => exact ⟨none, rfl⟩
  | null => exact absurd rfl h
  | present xs => cases xs with
    | nil => exact ⟨none, rfl⟩
    | cons x xs => exact ⟨some (x :: xs), rfl⟩

theorem routeValidated_eq_crash {ρ : Type} (env : Env ρ) (body : String)
    (d : DataTableRequestData) (hg : normalizeGroups d.groups = none) :
    routeValidated env body d =
      ⟨[Event.historyWrite "data-table" body], PostResponse.serverError⟩ := by
  unfold routeValidated
  rw [hg]

theorem routeValidated_eq_fast {ρ : Type} (env : Env ρ) (body : String)
    (d : DataTableRequestData) (gs : Option (List MsgGroup))
    (hg : normalizeGroups d.groups = some gs)
    (hf : fastPathEligible (getListField d.filters) (getListField d.exclude)
        d.dimensions = true) :
    routeValidated env body d =
      ⟨[Event.historyWrite "data-table" body, Event.precalcLookup (precalcCallFor d)],
        PostResponse.ok (env.precalcResult (precalcCallFor d))⟩ := by
  unfold routeValidated
  rw [hg]
  simp only [hf, if_true, precalcCallFor]

theorem routeValidated_eq_general {ρ : Type} (env : Env ρ) (body : String)
    (d : DataTableRequestData) (gs : Option (List MsgGroup))
    (hg : normalizeGroups d.groups = some gs)
    (hf : fastPathEligible (getListField d.filters) (getListField d.exclude)
        d.dimensions = false) :
    routeValidated env body d =
      ⟨[Event.historyWrite "data-table" body,
          Event.generateRun (generateCallFor d gs)],
        PostResponse.ok (env.generateResult (generateCallFor d gs))⟩ := by
  unfold routeValidated
  rw [hg]
  simp only [hf, Bool.false_eq_true, if_false, generateCallFor]

theorem post_eq_routeValidated {ρ : Type} (env : Env ρ) (req : RawRequest)
    (d : DataTableRequestData) (h : req.validated = some d) :
    DataTableView_post env req = routeValidated env req.body d := by
  unfold DataTableView_post
  rw [h]

theorem post_eq_badRequest {ρ : Type} (env : Env ρ) (req : RawRequest)
    (h : req.validated = none) :
    DataTableView_post env req =
      ⟨[Event.historyWrite "data-table" req.body], PostResponse.badRequest⟩ := by
  unfold DataTableView_post
  rw [h]

/-- Claim C1, counterexample. The frozen claim requires grouping to be
absent for the fast path, but the routing condition of lines 146-147 never
inspects groups: a request with empty filters and exclude lists, one
categorical dimension and a nonempty groups list still takes the fast
path, while the claim predicts the general aggregation path. -/
theorem claim_C1_counterexample :
    pathKind (DataTableView_post envN
        ⟨"c1", some {baseData with groups := .present [⟨5⟩]}⟩) = some true
    ∧ ({baseData with groups := .present [⟨5⟩]} : DataTableRequestData).groups
        ≠ OptListField.absent
    ∧ ({baseData with groups := .present [⟨5⟩]} : DataTableRequestData).groups
        ≠ OptListField.present [] := by decide

/-- Claim C1, amended. For every validated request whose groups field is
not null (null groups crash before routing), the fast path is taken if and
only if the filters value is an empty list, the exclude value is an empty
list, exactly one dimension is requested and it is categorical; the groups
field plays no role, and in every other case the general path is taken. -/
theorem claim_C1_theorem {ρ : Type} (env : Env ρ) (req : RawRequest)
    (d : DataTableRequestData) (h1 : req.validated = some d)
    (h2 : d.groups ≠ OptListField.null) :
    (pathKind (DataTableView_post env req) = some true
      ↔ fastPathEligible (getListField d.filters) (getListField d.exclude)
          d.dimensions = true)
    ∧ (pathKind (DataTableView_post env req) = some false
      ↔ fastPathEligible (getListField d.filters) (getListField d.exclude)
          d.dimensions = false) := by
  obtain ⟨gs, hg⟩ := normalizeGroups_isSome d.groups h2
  rw [post_eq_routeValidated env req d h1]
  cases hf : fastPathEligible (getListField d.filters) (getListField d.exclude)
      d.dimensions with
  | true =>
    rw [routeValidated_eq_fast env req.body d gs hg hf]
    simp [pathKind, List.findSome?]
  | false =>
    rw [routeValidated_eq_general env req.body d gs hg hf]
    simp [pathKind, List.findSome?]

/-- Claim C1, witness for the amended theorem at a concrete fast-path
request. -/
theorem claim_C1_witness :
    (pathKind (DataTableView_post envN ⟨"w1", some baseData⟩) = some true
      ↔ fastPathEligible (getListField baseData.filters)
          (getListField baseData.exclude) baseData.dimensions = true)
    ∧ (pathKind (DataTableView_post envN ⟨"w1", some baseData⟩) = some false
      ↔ fastPathEligible (getListField baseData.filters)
          (getListField baseData.exclude) baseData.dimensions = false) :=
  claim_C1_theorem envN ⟨"w1", some baseData⟩ baseData rfl (by decide)

/-- Claim C2, counterexample. A validated request supplying the
non-positive values page_size = -5 and page = -2 is not answered with a
validation error: the handler clamps both values, proceeds, invokes
exactly one computation path and returns 200 with its result. -/
theorem claim_C2_counterexample :
    isOkResponse (DataTableView_post envN
        ⟨"c2", some {baseData with page_size := some (-5), page := some (-2)}⟩).response
      = true
    ∧ pathEventCount (DataTableView_post envN
        ⟨"c2", some {baseData with page_size := some (-5), page := some (-2)}⟩) = 1
    ∧ (-5 : Int) ≤ 0 ∧ (-2 : Int) ≤ 0 := by decide

/-- Claim C2, amended. For every validated request whose groups field is
not null (a null groups value crashes before routing), supplying a
non-positive page or page_size never surfaces a validation error: a zero
value is treated as omitted (page_size defaults to 100, page stays
unset), a nonzero value is replaced by max(1, v), so after normalization
page_size is at least 1 and page, when set, is at least 1, and the
request proceeds to exactly one computation path with a 200 response. -/
theorem claim_C2_theorem {ρ : Type} (env : Env ρ) (req : RawRequest)
    (d : DataTableRequestData)
    (h1 : req.validated = some d) (h2 : d.groups ≠ OptListField.null)
    (h3 : (∃ ps, d.page_size = some ps ∧ ps ≤ 0)
        ∨ (∃ p, d.page = some p ∧ p ≤ 0)) :
    isOkResponse (DataTableView_post env req).response = true
    ∧ pathEventCount (DataTableView_post env req) = 1
    ∧ normalizePageSize d.page_size
        = (match d.page_size with
           | none => 100
           | some v => if v = 0 then 100 else max 1 v)
    ∧ normalizePage d.page
        = (match d.page with
           | none => none
           | some v => if v = 0 then none else some (max 1 v))
    ∧ 1 ≤ normalizePageSize d.page_size
    ∧ 1 ≤ (normalizePage d.page).getD 1 := by
  clear h3
  have hps : normalizePageSize d.page_size
      = (match d.page_size with
         | none => 100
         | some v => if v = 0 then 100 else max 1 v) := by
    cases d.page_size with
    | none => rfl
    | some v =>
      show (if v ≠ 0 then max 1 v else 100) = (if v = 0 then 100 else max 1 v)
      by_cases hz : v = 0
      · rw [if_neg (not_not_intro hz), if_pos hz]
      · rw [if_pos hz, if_neg hz]
  have hp : normalizePage d.page
      = (match d.page with
         | none => none
         | some v => if v = 0 then none else some (max 1 v)) := by
    cases d.page with
    | none => rfl
    | some v =>
      show (if v ≠ 0 then some (max 1 v) else none)
          = (if v = 0 then none else some (max 1 v))
      by_cases hz : v = 0
      · rw [if_neg (not_not_intro hz), if_pos hz]
      · rw [if_pos hz, if_neg hz]
  have hps1 : 1 ≤ normalizePageSize d.page_size := by
    cases d.page_size with
    | none => norm_num [normalizePageSize]
    | some v =>
      show (1 : Int) ≤ if v ≠ 0 then max 1 v else 100
      by_cases hz : v = 0
      · rw [if_neg (not_not_intro hz)]; norm_num
      · rw [if_pos hz]; exact le_max_left 1 v
  have hpp : 1 ≤ (normalizePage d.page).getD 1 := by
    cases d.page with
    | none => exact le_refl 1
    | some v =>
      show (1 : Int) ≤ (if v ≠ 0 then some (max 1 v) else none).getD 1
      by_cases hz : v = 0
      · rw [if_neg (not_not_intro hz)]; exact le_refl 1
      · rw [if_pos hz]; exact le_max_left 1 v
  obtain ⟨gs, hg⟩ := normalizeGroups_isSome d.groups h2
  rw [post_eq_routeValidated env req d h1]
  refine ⟨?_, ?_, hps, hp, hps1, hpp⟩
  · cases hf : fastPathEligible (getListField d.filters) (getListField d.exclude)
        d.dimensions with
    | true => rw [routeValidated_eq_fast env req.body d gs hg hf]; rfl
    | false => rw [routeValidated_eq_general env req.body d gs hg hf]; rfl
  · cases hf : fastPathEligible (getListField d.filters) (getListField d.exclude)
        d.dimensions with
    | true =>
      rw [routeValidated_eq_fast env req.body d gs hg hf]
      simp [pathEventCount, List.filter, isPathEvent]
    | false =>
      rw [routeValidated_eq_general env req.body d gs hg hf]
      simp [pathEventCount, List.filter, isPathEvent]

/-- Claim C2, witness for the amended theorem at a concrete request with
only page_size supplied non-positive (page_size = -5, page omitted). -/
theorem claim_C2_witness :
    isOkResponse (DataTableView_post envN
        ⟨"w2", some {baseData with page_size := some (-5)}⟩).response = true
    ∧ pathEventCount (DataTableView_post envN
        ⟨"w2", some {baseData with page_size := some (-5)}⟩) = 1
    ∧ normalizePageSize ({baseData with page_size := some (-5)}
        : DataTableRequestData).page_size
      = (match ({baseData with page_size := some (-5)}
            : DataTableRequestData).page_size with
         | none => 100
         | some v => if v = 0 then 100 else max 1 v)
    ∧ normalizePage ({baseData with page_size := some (-5)}
        : DataTableRequestData).page
      = (match ({baseData with page_size := some (-5)}
            : DataTableRequestData).page with
         | none => none
         | some v => if v = 0 then none else some (max 1 v))
    ∧ 1 ≤ normalizePageSize ({baseData with page_size := some (-5)}
        : DataTableRequestData).page_size
    ∧ 1 ≤ (normalizePage ({baseData with page_size := some (-5)}
        : DataTableRequestData).page).getD 1 :=
  claim_C2_theorem envN ⟨"w2", some {baseData with page_size := some (-5)}⟩
    {baseData with page_size := some (-5)} rfl (by decide)
    (Or.inl ⟨-5, rfl, by decide⟩)

/-- Claim C3, counterexample. A supplied page_size of 0 is not floored to
at least 1 (which would give max 1 0 = 1): Python truthiness treats 0 as
absent, so the default 100 is used instead; and an omitted page is not
defaulted to 1: it is left unset (None) for the downstream component. -/
theorem claim_C3_counterexample :
    normalizePageSize (some 0) = 100 ∧ max (1 : Int) 0 = 1 ∧ (100 : Int) ≠ 1
    ∧ normalizePage none = none ∧ (none : Option Int) ≠ some 1 := by decide

/-- Claim C3, amended. A supplied nonzero page_size is floored to at least
1; a page_size of 0 or an omitted page_size defaults to 100. A supplied
nonzero page is floored to at least 1; a page of 0 or an omitted page is
left unset (passed through as None) rather than defaulted to 1. -/
theorem claim_C3_theorem (v : Int) :
    normalizePageSize none = 100
    ∧ normalizePageSize (some v) = (if v = 0 then 100 else max 1 v)
    ∧ normalizePage none = none
    ∧ normalizePage (some v) = (if v = 0 then none else some (max 1 v)) := by
  refine ⟨rfl, ?_, rfl, ?_⟩ <;>
    by_cases hz : v = 0 <;> simp [normalizePageSize, normalizePage, hz]

/-- Claim C4. Whenever the handler answers 200 with a result, exactly one
of the two computation paths was invoked, and the result is the verbatim
answer of that single path: the response never mixes the two paths. -/
theorem claim_C4_theorem {ρ : Type} (env : Env ρ) (req : RawRequest) (r : ρ)
    (h : (DataTableView_post env req).response = PostResponse.ok r) :
    ((storeCallOf (DataTableView_post env req)).isSome
        && (generateCallOf (DataTableView_post env req)).isSome) = false
    ∧ resultOfPath env (DataTableView_post env req) = some r := by
  cases hv : req.validated with
  | none =>
    rw [post_eq_badRequest env req hv] at h
    exact absurd h (by simp)
  | some d =>
    rw [post_eq_routeValidated env req d hv] at h ⊢
    cases hg : normalizeGroups d.groups with
    | none =>
      rw [routeValidated_eq_crash env req.body d hg] at h
      exact absurd h (by simp)
    | some gs =>
      cases hf : fastPathEligible (getListField d.filters) (getListField d.exclude)
          d.dimensions with
      | true =>
        rw [routeValidated_eq_fast env req.body d gs hg hf] at h ⊢
        obtain rfl : env.precalcResult (precalcCallFor d) = r := by
          simpa using h
        exact ⟨rfl, rfl⟩
      | false =>
        rw [routeValidated_eq_general env req.body d gs hg hf] at h ⊢
        obtain rfl : env.generateResult (generateCallFor d gs) = r := by
          simpa using h
        exact ⟨rfl, rfl⟩

/-- Claim C4, witness at a concrete fast-path request. -/
theorem claim_C4_witness :
    ((storeCallOf (DataTableView_post envN ⟨"w4", some baseData⟩)).isSome
        && (generateCallOf (DataTableView_post envN ⟨"w4", some baseData⟩)).isSome)
      = false
    ∧ resultOfPath envN (DataTableView_post envN ⟨"w4", some baseData⟩) = some 7 :=
  claim_C4_theorem envN ⟨"w4", some baseData⟩ 7 (by decide)

/-- Claim C5. Two validated requests that are identical except for the
optional mode field are routed to the same path: mode never changes
fast-path eligibility. -/
theorem claim_C5_theorem {ρ : Type} (env : Env ρ) (body : String)
    (d : DataTableRequestData) (m1 m2 : Option String) :
    pathKind (DataTableView_post env ⟨body, some {d with mode := m1}⟩)
      = pathKind (DataTableView_post env ⟨body, some {d with mode := m2}⟩) := by
  have e1 : DataTableView_post env ⟨body, some {d with mode := m1}⟩
      = routeValidated env body {d with mode := m1} :=
    post_eq_routeValidated env _ _ rfl
  have e2 : DataTableView_post env ⟨body, some {d with mode := m2}⟩
      = routeValidated env body {d with mode := m2} :=
    post_eq_routeValidated env _ _ rfl
  rw [e1, e2]
  cases hg : normalizeGroups d.groups with
  | none =>
    rw [routeValidated_eq_crash env body {d with mode := m1} hg,
      routeValidated_eq_crash env body {d with mode := m2} hg]
  | some gs =>
    cases hf : fastPathEligible (getListField d.filters) (getListField d.exclude)
        d.dimensions with
    | true =>
      rw [routeValidated_eq_fast env body {d with mode := m1} gs hg hf,
        routeValidated_eq_fast env body {d with mode := m2} gs hg hf]
      rfl
    | false =>
      rw [routeValidated_eq_general env body {d with mode := m1} gs hg hf,
        routeValidated_eq_general env body {d with mode := m2} gs hg hf]
      rfl

/-- Concrete fast-path request differing from dataM2 only in mode. -/
def dataM1 : DataTableRequestData := {baseData with mode := some "default"}

/-- Concrete fast-path request differing from dataM1 only in mode. -/
def dataM2 : DataTableRequestData := {baseData with mode := some "cumulative"}

/-- Claim C6, counterexample. Two fast-path requests that agree on all
five claimed arguments (dataset, dimension list, search-key, page,
page_size) but differ in mode produce different store calls: line 148
passes mode to get_precalc_distribution as well, so the store is not
called with exactly the five claimed arguments. -/
theorem claim_C6_counterexample :
    storeCallOf (DataTableView_post envN ⟨"c6", some dataM1⟩)
        ≠ storeCallOf (DataTableView_post envN ⟨"c6", some dataM2⟩)
    ∧ dataM1.dataset = dataM2.dataset
    ∧ dataM1.dimensions = dataM2.dimensions
    ∧ dataM1.search_key = dataM2.search_key
    ∧ dataM1.page = dataM2.page
    ∧ dataM1.page_size = dataM2.page_size := by decide

/-- Claim C6, amended. For every fast-path-eligible validated request
(with groups not null), the handler delegates to the store with the
arguments (dataset, first dimension, search-key, normalized page,
normalized page_size) plus the mode hint, and returns the store answer
verbatim as the result of a 200 response. -/
theorem claim_C6_theorem {ρ : Type} (env : Env ρ) (req : RawRequest)
    (d : DataTableRequestData)
    (h1 : req.validated = some d) (h2 : d.groups ≠ OptListField.null)
    (hf : fastPathEligible (getListField d.filters) (getListField d.exclude)
        d.dimensions = true) :
    DataTableView_post env req =
      ⟨[Event.historyWrite "data-table" req.body,
          Event.precalcLookup (precalcCallFor d)],
        PostResponse.ok (env.precalcResult (precalcCallFor d))⟩ := by
  obtain ⟨gs, hg⟩ := normalizeGroups_isSome d.groups h2
  rw [post_eq_routeValidated env req d h1]
  exact routeValidated_eq_fast env req.body d gs hg hf

/-- Claim C6, witness for the amended theorem at a concrete request. -/
theorem claim_C6_witness :
    DataTableView_post envN ⟨"w6", some baseData⟩ =
      ⟨[Event.historyWrite "data-table" "w6",
          Event.precalcLookup (precalcCallFor baseData)],
        PostResponse.ok (envN.precalcResult (precalcCallFor baseData))⟩ :=
  claim_C6_theorem envN ⟨"w6", some baseData⟩ baseData rfl (by decide) (by decide)

/-- Claim C9, counterexample. A null filters value is not collapsed to the
empty list: the baseline request takes the fast path, the same request
with filters null takes the general path, and the same request with
groups null crashes with an unhandled TypeError instead of answering. -/
theorem claim_C9_counterexample :
    pathKind (DataTableView_post envN ⟨"c9", some baseData⟩) = some true
    ∧ pathKind (DataTableView_post envN
        ⟨"c9", some {baseData with filters := .null}⟩) = some false
    ∧ (DataTableView_post envN
        ⟨"c9", some {baseData with groups := .null}⟩).response
      = PostResponse.serverError := by decide

/-- Claim C9, amended. Omitting filters, exclude or groups is equivalent
to supplying that field as an empty list (the whole handler outcome is
identical), but a null value is not normalized: null filters or exclude
bypass the fast path and are passed through as None, and null groups
raises an unhandled error. -/
theorem claim_C9_theorem {ρ : Type} (env : Env ρ) (body : String)
    (d : DataTableRequestData) :
    DataTableView_post env ⟨body, some {d with filters := OptListField.absent}⟩
        = DataTableView_post env ⟨body, some {d with filters := OptListField.present []}⟩
    ∧ DataTableView_post env ⟨body, some {d with exclude := OptListField.absent}⟩
        = DataTableView_post env ⟨body, some {d with exclude := OptListField.present []}⟩
    ∧ DataTableView_post env ⟨body, some {d with groups := OptListField.absent}⟩
        = DataTableView_post env ⟨body, some {d with groups := OptListField.present []}⟩ :=
  ⟨rfl, rfl, rfl⟩

/-- Claim C10. On every POST the action-history write with the raw request
body is the first observable action, performed before validation; in
particular the write also happens for invalid requests, which are then
rejected with a 400 response. -/
theorem claim_C10_theorem {ρ : Type} (env : Env ρ) (req : RawRequest) :
    (DataTableView_post env req).events.head?
        = some (Event.historyWrite "data-table" req.body)
    ∧ (req.validated.isSome = true
        ∨ (DataTableView_post env req).response = PostResponse.badRequest) := by
  cases hv : req.validated with
  | none =>
    rw [post_eq_badRequest env req hv]
    exact ⟨rfl, Or.inr rfl⟩
  | some d =>
    refine ⟨?_, Or.inl (by simp [hv])⟩
    rw [post_eq_routeValidated env req d hv]
    cases hg : normalizeGroups d.groups with
    | none => rw [routeValidated_eq_crash env req.body d hg]; rfl
    | some gs =>
      cases hf : fastPathEligible (getListField d.filters) (getListField d.exclude)
          d.dimensions with
      | true => rw [routeValidated_eq_fast env req.body d gs hg hf]; rfl
      | false => rw [routeValidated_eq_general env req.body d gs hg hf]; rfl

/-- One row of the enhance_models.PrecalcCategoricalDistribution table. -/
structure DistEntry where
  dataset_id : Nat
  dimension_key : String
  level : String
  count : Nat
deriving DecidableEq

/-- The Django istartswith lookup: case-insensitive prefix match of kw
against lvl, modelled character-wise through Char.toLower. -/
def istartswith (lvl kw : String) : Bool :=
  (kw.data.map Char.toLower).isPrefixOf (lvl.data.map Char.toLower)

/-- The row condition of the queryset filter on lines 492-494 of views.py:
dataset_id matches, dimension_key is the literal string words, and the
level istartswith the search keyword. -/
def matchesKeywordRow (dsid : Nat) (kw : String) (e : DistEntry) : Bool :=
  e.dataset_id == dsid && e.dimension_key == "words" && istartswith e.level kw

/-- The ordering used by order_by on minus count: descending count. Ties
are left in stored order by the stable sort modelling the queryset. -/
def countGE (a b : DistEntry) : Prop := b.count ≤ a.count

instance : DecidableRel countGE := fun a b =>
  inferInstanceAs (Decidable (b.count ≤ a.count))

instance : IsTotal DistEntry countGE := ⟨fun a b => Nat.le_total b.count a.count⟩

instance : IsTrans DistEntry countGE := ⟨fun _ _ _ hab hbc => le_trans hbc hab⟩

/-- The keyword lookup of KeywordView.get, lines 492-496 of views.py:
filter the distribution table by dataset, the words dimension and a
case-insensitive prefix, order by descending count (stable), and truncate
to the first 20 rows. There is no page or page_size parameter. -/
def keywordQuery (tbl : List DistEntry) (dsid : Nat) (kw : String) : List DistEntry :=
  ((tbl.filter (matchesKeywordRow dsid kw)).insertionSort countGE).take 20

/-- The ordering claimed by the spec for the distribution store:
descending count with ties broken by the natural order of the level. -/
def specStoreLE (a b : DistEntry) : Prop :=
  b.count < a.count ∨ (a.count = b.count ∧ a.level ≤ b.level)

instance : DecidableRel specStoreLE := fun a b =>
  inferInstanceAs (Decidable (b.count < a.count ∨ (a.count = b.count ∧ a.level ≤ b.level)))

/-- Formalisation of the claim wording (spec section 4.4): rank the
matching rows by descending count with ties in natural level order, then
return page_size entries starting at offset (page - 1) * page_size. This
follows the claim, not the code, and is compared against keywordQuery. -/
def specStoreLookup (tbl : List DistEntry) (dsid : Nat) (kw : String)
    (page page_size : Nat) : List DistEntry :=
  (((tbl.filter (matchesKeywordRow dsid kw)).insertionSort specStoreLE).drop
      ((page - 1) * page_size)).take page_size

/-- Claim C7, counterexample. The in-source distribution lookup has no
paging: on a one-row table the claimed lookup with page 2 and page_size 1
must return the empty page, but the code lookup returns the first (and
only) row regardless, because it always slices the first 20 rows. -/
theorem claim_C7_counterexample :
    keywordQuery [⟨1, "words", "apple", 3⟩] 1 "a"
        ≠ specStoreLookup [⟨1, "words", "apple", 3⟩] 1 "a" 2 1
    ∧ keywordQuery [⟨1, "words", "apple", 3⟩] 1 "a" = [⟨1, "words", "apple", 3⟩]
    ∧ specStoreLookup [⟨1, "words", "apple", 3⟩] 1 "a" 2 1 = [] := by decide

/-- Claim C7, amended. Every row returned by the keyword lookup comes from
the table, matches the dataset, the words dimension and the
case-insensitive prefix; the output is ordered by descending count (ties
left in stored order) and is limited to the first 20 rows, with no page
offset applied. -/
theorem claim_C7_theorem (tbl : List DistEntry) (dsid : Nat) (kw : String)
    (e : DistEntry) (h : e ∈ keywordQuery tbl dsid kw) :
    e ∈ tbl ∧ matchesKeywordRow dsid kw e = true
    ∧ (keywordQuery tbl dsid kw).length ≤ 20
    ∧ List.Pairwise countGE (keywordQuery tbl dsid kw) := by
  have hmem : e ∈ (tbl.filter (matchesKeywordRow dsid kw)).insertionSort countGE :=
    List.take_subset 20 _ h
  rw [List.mem_insertionSort] at hmem
  have hfil := List.mem_filter.mp hmem
  refine ⟨hfil.1, hfil.2, ?_, ?_⟩
  · exact List.length_take_le 20 _
  · exact (List.sorted_insertionSort countGE _).sublist (List.take_sublist 20 _)

/-- Claim C7, witness for the amended theorem on a concrete one-row
table. -/
theorem claim_C7_witness :
    (⟨1, "words", "apple", 3⟩ : DistEntry) ∈ [(⟨1, "words", "apple", 3⟩ : DistEntry)]
    ∧ matchesKeywordRow 1 "a" ⟨1, "words", "apple", 3⟩ = true
    ∧ (keywordQuery [⟨1, "words", "apple", 3⟩] 1 "a").length ≤ 20
    ∧ List.Pairwise countGE (keywordQuery [⟨1, "words", "apple", 3⟩] 1 "a") :=
  claim_C7_theorem [⟨1, "words", "apple", 3⟩] 1 "a" ⟨1, "words", "apple", 3⟩ (by decide)

/-- Python q.split(said char): split a character list at every occurrence
of the separator, keeping empty pieces, as on line 489 of views.py where
the separator is the single space character. -/
def pySplitOn (sep : Char) : List Char → List (List Char)
  | [] => [[]]
  | c :: cs =>
    if c = sep then [] :: pySplitOn sep cs
    else
      match pySplitOn sep cs with
      | [] => [[c]]
      | t :: ts => (c :: t) :: ts

/-- Line 489 of views.py: strings = q.split(one space). Only the space
character separates; other whitespace does not. -/
def searchTokens (q : List Char) : List (List Char) := pySplitOn ' ' q

/-- Line 491 of views.py: keyword = strings[-1], the last token. -/
def searchKeywordOf (q : List Char) : List Char := (searchTokens q).getLastD []

/-- Case-insensitive prefix test over character lists, the level
istartswith keyword lookup of line 494. -/
def istartswithChars (lvl kw : List Char) : Bool :=
  (kw.map Char.toLower).isPrefixOf (lvl.map Char.toLower)

/-- Whether a stored level is matched by the search query of
KeywordView.get: the query is split on spaces and its last token is
matched against the level by case-insensitive prefix. -/
def keywordMatches (lvl q : List Char) : Bool :=
  istartswithChars lvl (searchKeywordOf q)

/-- Formalisation of the claim wording: tokenization on whitespace, that
is, the same splitting algorithm with any whitespace character as a
separator boundary. Compared against searchTokens, which only splits on
the space character. -/
def specWhitespaceTokens : List Char → List (List Char)
  | [] => [[]]
  | c :: cs =>
    if c.isWhitespace then [] :: specWhitespaceTokens cs
    else
      match specWhitespaceTokens cs with
      | [] => [[c]]
      | t :: ts => (c :: t) :: ts

/-- Joining a token list with single spaces, used to state that the split
of line 489 is lossless. -/
def joinSpace : List (List Char) → List Char
  | [] => []
  | [t] => t
  | t :: ts => t ++ ' ' :: joinSpace ts

theorem pySplitOn_ne_nil (sep : Char) (l : List Char) : pySplitOn sep l ≠ [] := by
  cases l with
  | nil => simp [pySplitOn]
  | cons c cs =>
    by_cases hc : c = sep
    · simp [pySplitOn, hc]
    · cases h : pySplitOn sep cs with
      | nil => simp [pySplitOn, hc, h]
      | cons t ts => simp [pySplitOn, hc, h]

theorem joinSpace_pySplitOn (l : List Char) : joinSpace (pySplitOn ' ' l) = l := by
  induction l with
  | nil => rfl
  | cons c cs ih =>
    by_cases hc : c = ' '
    · subst hc
      show joinSpace ([] :: pySplitOn ' ' cs) = ' ' :: cs
      cases h : pySplitOn ' ' cs with
      | nil => exact absurd h (pySplitOn_ne_nil ' ' cs)
      | cons t ts =>
        show ' ' :: joinSpace (t :: ts) = ' ' :: cs
        rw [h] at ih
        rw [ih]
    · cases h : pySplitOn ' ' cs with
      | nil => exact absurd h (pySplitOn_ne_nil ' ' cs)
      | cons t ts =>
        have hsplit : pySplitOn ' ' (c :: cs) = (c :: t) :: ts := by
          simp [pySplitOn, hc, h]
        rw [hsplit]
        rw [h] at ih
        cases ts with
        | nil =>
          show c :: t = c :: cs
          rw [show joinSpace [t] = t from rfl] at ih
          rw [ih]
        | cons t2 ts2 =>
          show (c :: t) ++ ' ' :: joinSpace (t2 :: ts2) = c :: cs
          rw [List.cons_append]
          rw [show t ++ ' ' :: joinSpace (t2 :: ts2) = joinSpace (t :: t2 :: ts2) from rfl]
          rw [ih]

theorem pySplitOn_no_sep (sep : Char) (l : List Char) :
    ∀ t ∈ pySplitOn sep l, sep ∉ t := by
  induction l with
  | nil =>
    intro t ht
    simp [pySplitOn] at ht
    simp [ht]
  | cons c cs ih =>
    intro t ht
    by_cases hc : c = sep
    · rw [show pySplitOn sep (c :: cs) = [] :: pySplitOn sep cs by simp [pySplitOn, hc]]
        at ht
      rcases List.mem_cons.mp ht with h1 | h2
      · simp [h1]
      · exact ih t h2
    · cases h : pySplitOn sep cs with
      | nil => exact absurd h (pySplitOn_ne_nil sep cs)
      | cons t0 ts =>
        rw [show pySplitOn sep (c :: cs) = (c :: t0) :: ts by simp [pySplitOn, hc, h]]
          at ht
        rcases List.mem_cons.mp ht with h1 | h2
        · subst h1
          intro hmem
          rcases List.mem_cons.mp hmem with h3 | h4
          · exact hc h3.symm
          · exact ih t0 (by rw [h]; exact List.mem_cons_self t0 ts) h4
        · exact ih t (by rw [h]; exact List.mem_cons_of_mem t0 h2)

/-- Claim C8, counterexample. The query is not tokenized on whitespace: a
tab does not separate tokens, so the single token of the query a-tab-b
contains a whitespace character, and matching diverges from whitespace
tokenization: the level ball is not matched by the code (whose keyword is
the whole query), while the last whitespace token b would match it. -/
theorem claim_C8_counterexample :
    searchTokens ['a', '\t', 'b'] ≠ specWhitespaceTokens ['a', '\t', 'b']
    ∧ searchTokens ['a', '\t', 'b'] = [['a', '\t', 'b']]
    ∧ '\t' ∈ searchKeywordOf ['a', '\t', 'b']
    ∧ ('\t').isWhitespace = true
    ∧ keywordMatches ['b', 'a', 'l', 'l'] ['a', '\t', 'b'] = false
    ∧ istartswithChars ['b', 'a', 'l', 'l']
        ((specWhitespaceTokens ['a', '\t', 'b']).getLastD []) = true := by decide

/-- Claim C8, amended. The query string is tokenized on the space
character only (other whitespace characters are not separators); the
resulting last token is matched against stored values by case-insensitive
prefix matching. The rule is stable and well defined: joining the tokens
with single spaces reconstructs the input exactly, and no token contains
a space. -/
theorem claim_C8_theorem (q t lvl : List Char) (h : t ∈ searchTokens q) :
    joinSpace (searchTokens q) = q
    ∧ ' ' ∉ t
    ∧ keywordMatches lvl q = istartswithChars lvl ((searchTokens q).getLastD []) :=
  ⟨joinSpace_pySplitOn q, pySplitOn_no_sep ' ' q t h, rfl⟩

/-- Claim C8, witness for the amended theorem at a concrete two-word
query. -/
theorem claim_C8_witness :
    joinSpace (searchTokens ['h', 'i', ' ', 'Y', 'o']) = ['h', 'i', ' ', 'Y', 'o']
    ∧ ' ' ∉ ['Y', 'o']
    ∧ keywordMatches ['y', 'o', 'u'] ['h', 'i', ' ', 'Y', 'o']
      = istartswithChars ['y', 'o', 'u']
          ((searchTokens ['h', 'i', ' ', 'Y', 'o']).getLastD []) :=
  claim_C8_theorem ['h', 'i', ' ', 'Y', 'o'] ['Y', 'o'] ['y', 'o', 'u'] (by decide)
